import Mathlib

/-!
Shallow embedding of the reminder bot in `main.py` (SofiaTit/tbot):
the temporal resolver (`process_time`), the per-reminder scheduling loop
(`schedule_reminder`), delivery (`send_reminder`, `get_weather`), the
active-reminder query (`show_reminders`), startup recovery (`main`) and
the delete flow (`delete_reminder`), together with theorems checking the
specification's claims against these definitions.

Python `datetime` values are modelled with minute fields down to seconds;
`datetime.replace` raising `ValueError` is modelled with `Except`.
-/

deriving instance DecidableEq for Except

/-- Model of a Python `datetime.datetime` (proleptic Gregorian calendar,
second granularity; `main.py` never uses microseconds). -/
structure PyDateTime where
  year : Nat
  month : Nat
  day : Nat
  hour : Nat
  minute : Nat
  second : Nat
deriving DecidableEq, Repr

/-- Gregorian leap-year rule, as used by Python's `calendar`/`datetime`. -/
def isLeap (y : Nat) : Bool :=
  (y % 4 == 0 && y % 100 != 0) || (y % 400 == 0)

/-- Number of days in month `m` of year `y` (Python `calendar.monthrange`). -/
def daysInMonth (y m : Nat) : Nat :=
  if m = 2 then (if isLeap y then 29 else 28)
  else if m = 4 ∨ m = 6 ∨ m = 9 ∨ m = 11 then 30
  else 31

/-- Days in all years before year `y` (proleptic Gregorian day count). -/
def daysBeforeYear (y : Nat) : Nat :=
  365 * (y - 1) + (y - 1) / 4 + (y - 1) / 400 - (y - 1) / 100

/-- Days in the months of year `y` strictly before month `m`. -/
def daysBeforeMonth (y m : Nat) : Nat :=
  ((List.range (m - 1)).map (fun i => daysInMonth y (i + 1))).sum

/-- Absolute second count of a datetime; mirrors Python `datetime`
ordering and subtraction (`total_seconds`) on valid datetimes. -/
def toAbs (d : PyDateTime) : Nat :=
  (((daysBeforeYear d.year + daysBeforeMonth d.year d.month + (d.day - 1)) * 24
      + d.hour) * 60 + d.minute) * 60 + d.second

/-- Python `a < b` on datetimes. -/
def pyLt (a b : PyDateTime) : Bool :=
  toAbs a < toAbs b

/-- Python `d + timedelta(days=1)`. -/
def add_one_day (d : PyDateTime) : PyDateTime :=
  if d.day < daysInMonth d.year d.month then { d with day := d.day + 1 }
  else if d.month < 12 then { d with month := d.month + 1, day := 1 }
  else { d with year := d.year + 1, month := 1, day := 1 }

/-- Python `d.replace(month := m)`: raises `ValueError` when `m` is not a
month or when the existing `day` does not exist in month `m`. -/
def replace_month (d : PyDateTime) (m : Nat) : Except String PyDateTime :=
  if 1 ≤ m ∧ m ≤ 12 then
    if d.day ≤ daysInMonth d.year m then Except.ok { d with month := m }
    else Except.error "day is out of range for month"
  else Except.error "month must be in 1..12"

/-- Python `d.replace(year := y, month := m)` with the same `ValueError`
behaviour as `replace_month`. -/
def replace_year_month (d : PyDateTime) (y m : Nat) : Except String PyDateTime :=
  if 1 ≤ m ∧ m ≤ 12 then
    if d.day ≤ daysInMonth y m then Except.ok { d with year := y, month := m }
    else Except.error "day is out of range for month"
  else Except.error "month must be in 1..12"

/-- Python `str.lower` on one character, covering ASCII and the Cyrillic
letters used by the bot's keyword tests. -/
def py_lower_char (c : Char) : Char :=
  if 65 ≤ c.toNat ∧ c.toNat ≤ 90 then Char.ofNat (c.toNat + 32)
  else if 0x410 ≤ c.toNat ∧ c.toNat ≤ 0x42F then Char.ofNat (c.toNat + 0x20)
  else if c.toNat = 0x401 then Char.ofNat 0x451
  else c

/-- Python `str.lower`. -/
def py_lower (s : String) : String :=
  String.mk (s.data.map py_lower_char)

/-- Python truthiness of a string: non-empty. -/
def py_str_truthy (s : String) : Bool :=
  s != ""

/-- Python truthiness of an optional string (`None` and `""` are falsy). -/
def py_opt_truthy : Option String → Bool
  | none => false
  | some s => py_str_truthy s

/-- Python `pat in hay` on strings, over explicit character lists. -/
def py_contains : List Char → List Char → Bool
  | [], pat => pat.isEmpty
  | c :: rest, pat => pat.isPrefixOf (c :: rest) || py_contains rest pat

/-- Recursion core of Python `str.replace`. `fuel` bounds the recursion
depth; callers pass the string length, which suffices because every step
consumes at least one character. -/
def py_replace_go (pat rep : List Char) : Nat → List Char → List Char
  | _, [] => []
  | 0, l => l
  | fuel + 1, c :: rest =>
    if !pat.isEmpty && pat.isPrefixOf (c :: rest) then
      rep ++ py_replace_go pat rep fuel ((c :: rest).drop pat.length)
    else
      c :: py_replace_go pat rep fuel rest

/-- Python `s.replace(pat, rep)` (all occurrences). -/
def py_replace (s pat rep : String) : String :=
  String.mk (py_replace_go pat.data rep.data s.data.length s.data)

/-- Python `str.strip()`: drop whitespace on both ends. -/
def py_strip (s : String) : String :=
  String.mk (((s.data.dropWhile Char.isWhitespace).reverse.dropWhile
    Char.isWhitespace).reverse)

/-- Recurrence detection of `process_time` (`main.py` lines 211-220),
returning the recurrence value assigned to `repeat` and the stripped
`time_str` handed to `dateparser`. The Python condition
`if "каждый день" or "Каждый день" in clean_time_str:` parses as
`"каждый день" or ("Каждый день" in clean_time_str)`; its left operand is
a non-empty string literal, hence truthy, so the test short-circuits to
`True` for every input and the `elif "каждый месяц" ...` branch is
unreachable. The embedding keeps exactly that shape. -/
def detect_repeat (time_str : String) : Option String × String :=
  let clean_time_str := py_lower time_str
  if py_str_truthy "каждый день" ||
      py_contains clean_time_str.data "Каждый день".data then
    (some "ежедневно", py_strip (py_replace (py_lower time_str) "каждый день" ""))
  else if py_str_truthy "каждый месяц" ||
      py_contains clean_time_str.data "Каждый месяц".data then
    (some "ежемесячно", py_strip (py_replace (py_lower time_str) "каждый месяц" ""))
  else
    (none, time_str)

/-- Past-due adjustment of `process_time` (`main.py` lines 237-246):
`if parsed_time < now and repeat:` then the `daily` / `monthly` branches.
Note the comparisons are against the literals `"daily"` and `"monthly"`,
while `detect_repeat` only ever assigns `"ежедневно"` / `"ежемесячно"`. -/
def adjust_past_due (repeat_tag : Option String) (parsed_time now : PyDateTime) :
    Except String PyDateTime :=
  if pyLt parsed_time now && py_opt_truthy repeat_tag then
    if repeat_tag = some "daily" then
      Except.ok (add_one_day parsed_time)
    else if repeat_tag = some "monthly" then do
      let t ← replace_year_month parsed_time now.year (now.month + 1)
      if pyLt t now then replace_month t (t.month + 1) else Except.ok t
    else
      Except.ok parsed_time
  else
    Except.ok parsed_time

/-- The persisted `Reminder` entity (`main.py` lines 29-40). -/
structure Reminder where
  id : Nat
  user_id : Nat
  name : String
  time : PyDateTime
  repeat_interval : Option String
  is_weather : Bool
  city : Option String
  file_id : Option String
  file_type : Option String
  next_run : PyDateTime
deriving DecidableEq, Repr

/-- Outcome of one iteration of the `while True` loop in
`schedule_reminder` (`main.py` lines 453-473), observed from outside:
whether a delivery fires, after which wait, and with which `next_run`
afterwards. -/
inductive SchedAction where
  | exitNoFire
  | fireThenStop (delay : Int)
  | fireThenContinue (delay : Int) (new_next_run : PyDateTime)
  | fireThenError (delay : Int) (msg : String)
deriving DecidableEq, Repr

/-- The wait, in seconds, before this action delivers, or `none` when it
delivers nothing. -/
def SchedAction.fire_delay : SchedAction → Option Int
  | .exitNoFire => none
  | .fireThenStop d => some d
  | .fireThenContinue d _ => some d
  | .fireThenError d _ => some d

/-- One iteration of `schedule_reminder` (`main.py` lines 453-473):
`delay = (next_run - now).total_seconds()`; if `delay > 0` the task
sleeps, sends, and, when `repeat_interval` is truthy, advances `next_run`
(`+ timedelta(days=1)` only when the interval equals `'daily'`,
`.replace(month := month+1)` only when it equals `'monthly'`; any other
truthy interval leaves `next_run` unchanged) and loops; a falsy interval
or a non-positive delay ends the loop. -/
def schedule_step (repeat_interval : Option String) (next_run now : PyDateTime) :
    SchedAction :=
  let delay : Int := (toAbs next_run : Int) - (toAbs now : Int)
  if delay > 0 then
    if py_opt_truthy repeat_interval then
      if repeat_interval = some "daily" then
        SchedAction.fireThenContinue delay (add_one_day next_run)
      else if repeat_interval = some "monthly" then
        match replace_month next_run (next_run.month + 1) with
        | Except.ok t => SchedAction.fireThenContinue delay t
        | Except.error m => SchedAction.fireThenError delay m
      else
        SchedAction.fireThenContinue delay next_run
    else
      SchedAction.fireThenStop delay
  else
    SchedAction.exitNoFire

/-- Payload of the weather HTTP response consumed by `get_weather`. -/
structure WeatherData where
  temp : Int
  feels_like : Int
  description : String
  wind_speed : Int
deriving DecidableEq, Repr

/-- The three ways the weather lookup inside `get_weather` can go: a 200
response, a response with `data.cod != 200`, or a raised exception. The
HTTP call itself is external; it enters the embedding as this input. -/
inductive WeatherOutcome where
  | ok (d : WeatherData)
  | badStatus (message : String)
  | exn (message : String)
deriving DecidableEq, Repr

/-- Python `str.upper` on one character, covering ASCII and Cyrillic. -/
def py_upper_char (c : Char) : Char :=
  if 97 ≤ c.toNat ∧ c.toNat ≤ 122 then Char.ofNat (c.toNat - 32)
  else if 0x430 ≤ c.toNat ∧ c.toNat ≤ 0x44F then Char.ofNat (c.toNat - 0x20)
  else if c.toNat = 0x451 then Char.ofNat 0x401
  else c

/-- Python `str.capitalize()`: first character uppercased, rest lowered. -/
def py_capitalize (s : String) : String :=
  match s.data with
  | [] => ""
  | c :: rest => String.mk (py_upper_char c :: rest.map py_lower_char)

/-- `get_weather` (`main.py` lines 58-76): always returns a string; both
the non-200 branch and the blanket `except` produce an error text rather
than raising. -/
def get_weather (city : String) (outcome : WeatherOutcome) : String :=
  match outcome with
  | WeatherOutcome.exn e => "Ошибка получения погоды: " ++ e
  | WeatherOutcome.badStatus m => "Ошибка: " ++ m
  | WeatherOutcome.ok d =>
      "Погода в " ++ city ++ ":\n" ++
      "Температура: " ++ toString d.temp ++ "°C\n" ++
      "Ощущается как: " ++ toString d.feels_like ++ "°C\n" ++
      py_capitalize d.description ++ "\n" ++
      "Ветер: " ++ toString d.wind_speed ++ " м/с"

/-- A message handed to the messaging gateway. -/
inductive Msg where
  | text (user_id : Nat) (body : String)
  | photo (user_id : Nat) (file_id : String) (caption : String)
  | document (user_id : Nat) (file_id : String) (caption : String)
  | audio (user_id : Nat) (file_id : String) (caption : String)
deriving DecidableEq, Repr

/-- `send_reminder` (`main.py` lines 476-495) as the list of gateway sends
it performs, the weather HTTP response being an input. Weather reminders
always send one text (possibly the `get_weather` error text). Non-weather
reminders with a truthy `file_id` dispatch on `file_type` with no final
`else`: an unrecognised kind sends nothing at all. -/
def send_reminder (r : Reminder) (weather : WeatherOutcome) : List Msg :=
  if r.is_weather then
    let weather_text := get_weather (r.city.getD "") weather
    [Msg.text r.user_id
      ("⏰ Напоминание о погоде в " ++ r.city.getD "" ++ ":\n" ++ weather_text)]
  else
    let text := "⏰ Напоминание: " ++ r.name
    if py_opt_truthy r.file_id then
      if r.file_type = some "photo" then
        [Msg.photo r.user_id (r.file_id.getD "") text]
      else if r.file_type = some "document" then
        [Msg.document r.user_id (r.file_id.getD "") text]
      else if r.file_type = some "audio" then
        [Msg.audio r.user_id (r.file_id.getD "") text]
      else
        []
    else
      [Msg.text r.user_id text]

/-- The SQL filter of `show_reminders` (`main.py` lines 117-120):
`user_id == uid AND (next_run > now OR repeat_interval IS NOT NULL)`. -/
def show_reminders_pred (uid : Nat) (now : PyDateTime) (r : Reminder) : Bool :=
  r.user_id == uid && (pyLt now r.next_run || r.repeat_interval.isSome)

/-- The `ORDER BY next_run` comparison of `show_reminders`. -/
def next_run_le (a b : Reminder) : Bool :=
  toAbs a.next_run ≤ toAbs b.next_run

/-- The query of `show_reminders` (`main.py` lines 117-120): filter by
owner and activity, then order by `next_run` ascending. -/
def show_reminders_query (store : List Reminder) (uid : Nat) (now : PyDateTime) :
    List Reminder :=
  (store.filter (show_reminders_pred uid now)).mergeSort next_run_le

/-- The startup recovery query of `main` (`main.py` lines 544-548): all
rows with `next_run > now`; one `schedule_reminder` task is created per
returned row. -/
def recover_reminders (store : List Reminder) (now : PyDateTime) : List Reminder :=
  store.filter (fun r => pyLt now r.next_run)

/-- Process state relevant to the delete race: the persisted rows and the
in-memory `Reminder` snapshots held by live `schedule_reminder` tasks
(one entry per `asyncio.create_task(schedule_reminder(...))` call). -/
structure BotState where
  store : List Reminder
  tasks : List Reminder
deriving DecidableEq, Repr

/-- `save_and_schedule` (`main.py` lines 419-450): persists the reminder
and creates one scheduling task holding it. -/
def save_and_schedule (st : BotState) (r : Reminder) : BotState :=
  { store := st.store ++ [r], tasks := st.tasks ++ [r] }

/-- `delete_reminder` (`main.py` lines 291-321): `session.get` by primary
key, owner check, `session.delete` + commit. The body touches only the
database session; no cancellation of the reminder's scheduling task
appears anywhere in the source, so `tasks` is untouched. Returns the new
state and whether the deletion message was sent. -/
def delete_reminder (st : BotState) (reminder_id from_user_id : Nat) :
    BotState × Bool :=
  match st.store.find? (fun r => r.id == reminder_id) with
  | some r =>
    if r.user_id == from_user_id then
      ({ st with store := st.store.eraseP (fun q => q.id == reminder_id) }, true)
    else
      (st, false)
  | none => (st, false)

/-- 2024-03-01 08:00. -/
def dtMar1_8 : PyDateTime := ⟨2024, 3, 1, 8, 0, 0⟩

/-- 2024-03-01 09:00. -/
def dtMar1_9 : PyDateTime := ⟨2024, 3, 1, 9, 0, 0⟩

/-- 2024-03-02 07:00. -/
def dtMar2_7 : PyDateTime := ⟨2024, 3, 2, 7, 0, 0⟩

/-- 2024-03-02 08:00. -/
def dtMar2_8 : PyDateTime := ⟨2024, 3, 2, 8, 0, 0⟩

/-- 2024-01-31 08:00. -/
def dtJan31_8 : PyDateTime := ⟨2024, 1, 31, 8, 0, 0⟩

/-- 2024-01-31 09:00. -/
def dtJan31_9 : PyDateTime := ⟨2024, 1, 31, 9, 0, 0⟩

/-- 2024-01-31 10:00. -/
def dtJan31_10 : PyDateTime := ⟨2024, 1, 31, 10, 0, 0⟩

/-- 2024-12-15 09:00. -/
def dtDec15_9 : PyDateTime := ⟨2024, 12, 15, 9, 0, 0⟩

/-- A one-off reminder whose wait is pending when its owner deletes it. -/
def c5_reminder : Reminder :=
  { id := 1, user_id := 7, name := "pills", time := dtMar2_8,
    repeat_interval := none, is_weather := false, city := none,
    file_id := none, file_type := none, next_run := dtMar2_8 }

/-- A recurring weather reminder as the intake flow actually stores it:
`repeat_interval` is the value `"ежедневно"` assigned by `process_time`. -/
def c8_reminder : Reminder :=
  { id := 2, user_id := 7, name := "Напоминание о погоде", time := dtMar1_8,
    repeat_interval := some "ежедневно", is_weather := true,
    city := some "Париж", file_id := none, file_type := none,
    next_run := dtMar2_8 }

/-- A non-weather reminder carrying an attachment of unrecognised kind. -/
def c10_reminder : Reminder :=
  { id := 3, user_id := 7, name := "note", time := dtMar2_8,
    repeat_interval := none, is_weather := false, city := none,
    file_id := some "AABB", file_type := some "video", next_run := dtMar2_8 }

/-- C1: the claim says that after each delivery of a recurring reminder the
scheduler adds one day (daily) or one month (monthly) to `next_run` and
re-arms, so `next_run` strictly increases. The code violates this: the
intake stores the interval `"ежедневно"`, but `schedule_reminder` compares
against `'daily'` / `'monthly'`, so after the delivery `next_run` is left
unchanged and the next loop iteration exits without re-arming. -/
theorem c1_stored_interval_never_advances :
    detect_repeat "каждый день в 8:00" = (some "ежедневно", "в 8:00") ∧
    schedule_step (some "ежедневно") dtMar2_8 dtMar2_7 =
      SchedAction.fireThenContinue 3600 dtMar2_8 ∧
    schedule_step (some "ежедневно") dtMar2_8 dtMar2_8 =
      SchedAction.exitNoFire := by
  decide

/-- C2: the claim says phrases with no recurrence keyword get recurrence
`none` and "every month" phrases get the monthly tag. The code violates
this: `"каждый день" or "Каждый день" in clean_time_str` is always true,
so every phrase — keyword-free or monthly alike — is tagged
`"ежедневно"`. -/
theorem c2_every_phrase_tagged_daily :
    detect_repeat "завтра в 10:00" = (some "ежедневно", "завтра в 10:00") ∧
    detect_repeat "каждый месяц 1 числа в 9:00" =
      (some "ежедневно", "каждый месяц 1 числа в 9:00") := by
  decide

/-- C3: the claim says a past-due first occurrence of a recurring reminder
is advanced by one recurrence unit. The code violates this: the
adjustment compares `repeat` with `"daily"` / `"monthly"`, but the value
actually assigned is `"ежедневно"`, so no branch runs and the timestamp
stays in the past. -/
theorem c3_past_due_first_occurrence_not_advanced :
    detect_repeat "каждый день в 8:00" = (some "ежедневно", "в 8:00") ∧
    adjust_past_due (some "ежедневно") dtMar1_8 dtMar1_9 =
      Except.ok dtMar1_8 ∧
    pyLt dtMar1_8 dtMar1_9 = true := by
  decide

/-- C4: the claim says month-addition never raises on day-of-month
overflow and rolls forward to the first valid day. The code violates
this: both the scheduler's monthly advance and the resolver's past-due
adjustment call `datetime.replace`, which raises `ValueError` when the
day does not exist in the target month, and in December the scheduler
passes month 13, which also raises. -/
theorem c4_month_addition_raises_on_overflow :
    schedule_step (some "monthly") dtJan31_9 dtJan31_8 =
      SchedAction.fireThenError 3600 "day is out of range for month" ∧
    replace_month dtJan31_9 2 =
      Except.error "day is out of range for month" ∧
    adjust_past_due (some "monthly") dtJan31_9 dtJan31_10 =
      Except.error "day is out of range for month" ∧
    replace_month dtDec15_9 13 = Except.error "month must be in 1..12" := by
  decide

/-- C5: the claim says the delete flow interrupts the pending wait before
the store mutation, so a deleted reminder never fires. The code violates
this: `delete_reminder` only removes the database row; the scheduling
task and its in-memory reminder survive, and at the due instant the stale
task still fires the delivery (positive `fire_delay`). -/
theorem c5_delete_leaves_stale_task_armed :
    delete_reminder (save_and_schedule ⟨[], []⟩ c5_reminder) 1 7 =
      ({ store := [], tasks := [c5_reminder] }, true) ∧
    (schedule_step c5_reminder.repeat_interval c5_reminder.next_run
        dtMar2_7).fire_delay = some 3600 := by
  decide

/-- C6 counterexample: at a `next_run` one hour in the past the delay is
non-positive, and `schedule_reminder` delivers nothing at all — it does
not fire immediately as the claim states. -/
theorem c6_past_due_does_not_fire :
    (toAbs dtMar1_8 : Int) - (toAbs dtMar1_9 : Int) ≤ 0 ∧
    (schedule_step none dtMar1_8 dtMar1_9).fire_delay = none ∧
    (schedule_step (some "daily") dtMar1_8 dtMar1_9).fire_delay = none := by
  decide

/-- C6 (amended): the scheduler computes `delay = next_run − now`; if
`delay ≤ 0` it exits without firing anything, otherwise it suspends for
exactly `delay` and then fires the delivery. -/
theorem c6_fires_exactly_when_delay_positive (ri : Option String)
    (nr now : PyDateTime) :
    (schedule_step ri nr now).fire_delay =
      if (toAbs nr : Int) - (toAbs now : Int) > 0
      then some ((toAbs nr : Int) - (toAbs now : Int))
      else none := by
  unfold schedule_step
  dsimp only
  split
  · split
    · split
      · rfl
      · split
        · split <;> rfl
        · rfl
    · rfl
  · rfl

/-- C7: on startup, recovery arms exactly the stored reminders whose
`next_run` is strictly in the future, each stored row exactly once;
reminders already past due — recurring or not — are not recovered. -/
theorem c7_recovery_arms_exactly_future (store : List Reminder)
    (now : PyDateTime) (r : Reminder) :
    (recover_reminders store now).count r =
      if pyLt now r.next_run then store.count r else 0 := by
  unfold recover_reminders
  cases h : pyLt now r.next_run with
  | true =>
    simp only [h, if_true]
    exact List.count_filter h
  | false =>
    simp [h, List.count_eq_zero, List.mem_filter]

/-- C8: the claim says a failed weather lookup yields a failure-notice
text instead of aborting, and a recurring reminder still advances. The
first half holds, but the code violates the second: with the stored
interval `"ежедневно"` the post-delivery advance never runs, `next_run`
stays unchanged and the loop exits instead of re-arming. -/
theorem c8_failure_notice_sent_but_reminder_never_advances :
    send_reminder c8_reminder (WeatherOutcome.badStatus "city not found") =
      [Msg.text 7 "⏰ Напоминание о погоде в Париж:\nОшибка: city not found"] ∧
    schedule_step c8_reminder.repeat_interval c8_reminder.next_run dtMar2_7 =
      SchedAction.fireThenContinue 3600 c8_reminder.next_run ∧
    schedule_step c8_reminder.repeat_interval c8_reminder.next_run dtMar2_8 =
      SchedAction.exitNoFire := by
  decide

/-- C9: for every owner and query moment, the active-reminder query
returns exactly the owner's reminders with `next_run > now` or a non-null
recurrence, ordered by `next_run` ascending. -/
theorem c9_list_active_members_and_order (store : List Reminder) (uid : Nat)
    (now : PyDateTime) (r : Reminder) :
    (r ∈ show_reminders_query store uid now ↔
        r ∈ store ∧ r.user_id = uid ∧
          (toAbs now < toAbs r.next_run ∨ r.repeat_interval ≠ none)) ∧
    (show_reminders_query store uid now).Pairwise
      (fun a b => toAbs a.next_run ≤ toAbs b.next_run) := by
  constructor
  · rw [show_reminders_query, List.mem_mergeSort, List.mem_filter]
    simp [show_reminders_pred, pyLt, Option.isSome_iff_ne_none, and_assoc]
  · refine List.Pairwise.imp ?_
      (List.sorted_mergeSort ?_ ?_ (store.filter (show_reminders_pred uid now)))
    · intro a b hab
      simpa [next_run_le] using hab
    · intro a b c hab hbc
      simp only [next_run_le, decide_eq_true_eq] at *
      omega
    · intro a b
      simp only [next_run_le, Bool.or_eq_true, decide_eq_true_eq]
      omega

/-- C10: a non-weather reminder with a set `file_id` whose `file_type` is
none of photo, document or audio sends no message at all: the dispatch
has no fallback branch. -/
theorem c10_unknown_attachment_kind_sends_nothing (r : Reminder)
    (w : WeatherOutcome) (hw : r.is_weather = false)
    (hf : py_opt_truthy r.file_id = true)
    (hp : r.file_type ≠ some "photo") (hd : r.file_type ≠ some "document")
    (ha : r.file_type ≠ some "audio") :
    send_reminder r w = [] := by
  unfold send_reminder
  simp [hw, hf, hp, hd, ha]

/-- C10 witness: a concrete reminder with `file_type = "video"` delivers
nothing. -/
theorem c10_witness : send_reminder c10_reminder (WeatherOutcome.exn "down") = [] :=
  c10_unknown_attachment_kind_sends_nothing c10_reminder
    (WeatherOutcome.exn "down") rfl (by decide) (by decide) (by decide) (by decide)
